import Mathlib

/-!
Verification of the Fresnel biprism interference simulator.

The repository contains two near-duplicate front-ends around one core
computation:
  * `app.py`   — `FresnelBiprismSimCore.calculate_physics` / `generate_plot`
  * `main.py`  — `FresnelBiprismSim._calculate_physics` / `update_plot`

The physics solver is embedded over `ℚ` (the Python code computes with IEEE
doubles; all claims under scrutiny are algebraic, so exact rational
arithmetic is the faithful idealisation).  The pattern synthesizer involves
`cos`, `sin` and `π`, so it is embedded over `ℝ`.
-/

deriving instance DecidableEq for Except

namespace Biprism

/-- The eight input measurements (`params` dict in both front-ends). -/
structure InputParams where
  x1 : ℚ
  x2 : ℚ
  x3 : ℚ
  P1 : ℚ
  P2 : ℚ
  x4 : ℚ
  x5 : ℚ
  slit_width : ℚ
  deriving DecidableEq, Repr

/-- The results dict produced by `calculate_physics` on success. -/
structure Results where
  u_cm : ℚ
  v_cm : ℚ
  D_cm : ℚ
  d_prime_mm : ℚ
  d_mm : ℚ
  delta_x_mm : ℚ
  wavelength_nm : ℚ
  D_mm_plot : ℚ
  d_mm_plot : ℚ
  b_slit_mm_plot : ℚ
  lambda_mm_plot : ℚ
  deriving DecidableEq, Repr

/-- Python's `abs` on a rational value.  (Mathlib's `|·|` on `ℚ` does not
kernel-reduce, so the embedding uses this executable form; `rabs_eq_abs`
identifies the two.) -/
def rabs (q : ℚ) : ℚ := if q < 0 then -q else q

/-- The threshold `1e-9` used by the validation checks and guards. -/
def eps9 : ℚ := 1 / 1000000000

/-- The four input-validation failures, in the order the source checks them. -/
inductive VErr where
  | ordering          -- `x₁ < x₂ < x₃` violated
  | degenerateImages  -- `|P₁ - P₂| < 1e-9`
  | fringeOrdering    -- `x₅ ≤ x₄`
  | invalidSlitWidth  -- `slit_width ≤ 0`
  deriving DecidableEq, Repr

/-- Failure outcomes of `calculate_physics`: the input-validation errors
(`app.py` collects a list of them; `main.py` raises on the first) and the
three later fatal guards. -/
inductive SolveError where
  | validation (errs : List VErr)  -- `error_msgs` / first `ValueError`
  | vNearZero                      -- `abs(v_mm) < 1e-9`
  | DNearZero                      -- `abs(D_mm) < 1e-9`
  | deltaXDegenerate               -- `delta_x_mm_calc <= 1e-9`
  deriving DecidableEq, Repr

/-- `error_msgs` accumulation of `app.py` (lines 180-188): every failing
check appends its message, in this fixed order. -/
def validationErrors (p : InputParams) : List VErr :=
  (if ¬(p.x1 < p.x2 ∧ p.x2 < p.x3) then [VErr.ordering] else []) ++
  (if rabs (p.P1 - p.P2) < eps9 then [VErr.degenerateImages] else []) ++
  (if p.x5 ≤ p.x4 then [VErr.fringeOrdering] else []) ++
  (if p.slit_width ≤ 0 then [VErr.invalidSlitWidth] else [])

/-- `main.py` raises a `ValueError` at the first failing check (lines
382-389); this returns that first failing check. -/
def firstFailing (p : InputParams) : Option VErr :=
  if ¬(p.x1 < p.x2 ∧ p.x2 < p.x3) then some VErr.ordering
  else if rabs (p.P1 - p.P2) < eps9 then some VErr.degenerateImages
  else if p.x5 ≤ p.x4 then some VErr.fringeOrdering
  else if p.slit_width ≤ 0 then some VErr.invalidSlitWidth
  else none

/- The derived quantities, one definition per local of `calculate_physics`. -/

def u_cm (p : InputParams) : ℚ := p.x2 - p.x1

def v_cm (p : InputParams) : ℚ := p.x3 - p.x2

def d_prime_mm (p : InputParams) : ℚ := rabs (p.P2 - p.P1)

def u_mm (p : InputParams) : ℚ := u_cm p * 10

def v_mm (p : InputParams) : ℚ := v_cm p * 10

def D_mm (p : InputParams) : ℚ := (p.x3 - p.x1) * 10

def d_mm_calc (p : InputParams) : ℚ := d_prime_mm p * (u_mm p / v_mm p)

def delta_x_mm_calc (p : InputParams) : ℚ := rabs (p.x5 - p.x4) / 10

def wavelength_mm (p : InputParams) : ℚ :=
  d_mm_calc p * delta_x_mm_calc p / D_mm p

def wavelength_nm_calc (p : InputParams) : ℚ := wavelength_mm p * 1000000

/-- The `results` dict built at the end of the happy path (identical in both
front-ends). -/
def mkResults (p : InputParams) : Results :=
  { u_cm := u_cm p
    v_cm := v_cm p
    D_cm := D_mm p / 10
    d_prime_mm := d_prime_mm p
    d_mm := d_mm_calc p
    delta_x_mm := delta_x_mm_calc p
    wavelength_nm := wavelength_nm_calc p
    D_mm_plot := D_mm p
    d_mm_plot := d_mm_calc p
    b_slit_mm_plot := p.slit_width
    lambda_mm_plot := wavelength_mm p }

/-- `FresnelBiprismSimCore.calculate_physics` (`app.py` lines 165-253).
All failing validation checks are reported together; the later guards
(`v ≈ 0`, `D ≈ 0`, `Δx ≤ 1e-9`) abort in the source's order.  The
near-zero-`d` and wavelength-range conditions are only advisory
(`st.warning` / `st.info`) and are modelled separately by `dNegligible`
and `classifyWavelength`. -/
def calculate_physics (p : InputParams) : Except SolveError Results :=
  if validationErrors p ≠ [] then .error (.validation (validationErrors p))
  else if rabs (v_mm p) < eps9 then .error .vNearZero
  else if rabs (D_mm p) < eps9 then .error .DNearZero
  else if delta_x_mm_calc p ≤ eps9 then .error .deltaXDegenerate
  else .ok (mkResults p)

/-- `FresnelBiprismSim._calculate_physics` (`main.py` lines 368-444): same
computation, but validation raises at the first failing check, so exactly
one validation error is ever reported. -/
def calculate_physics_main (p : InputParams) : Except SolveError Results :=
  if ¬(p.x1 < p.x2 ∧ p.x2 < p.x3) then .error (.validation [VErr.ordering])
  else if rabs (p.P1 - p.P2) < eps9 then .error (.validation [VErr.degenerateImages])
  else if p.x5 ≤ p.x4 then .error (.validation [VErr.fringeOrdering])
  else if p.slit_width ≤ 0 then .error (.validation [VErr.invalidSlitWidth])
  else if rabs (v_mm p) < eps9 then .error .vNearZero
  else if rabs (D_mm p) < eps9 then .error .DNearZero
  else if delta_x_mm_calc p ≤ eps9 then .error .deltaXDegenerate
  else .ok (mkResults p)

/-- Advisory condition `abs(d_mm_calc) < 1e-9` (non-fatal `st.warning`). -/
def dNegligible (p : InputParams) : Prop := rabs (d_mm_calc p) < eps9

instance (p : InputParams) : Decidable (dNegligible p) := by
  unfold dNegligible; infer_instance

/-- Classification of the advisory wavelength messages. -/
inductive WavelengthClass where
  | atypical   -- `not (1 < λ < 10000)` → `st.warning`
  | outOfVisible  -- else `not (380 <= λ <= 780)` → `st.info`
  | visible       -- no message
  deriving DecidableEq, Repr

/-- The `if not (1 < wavelength_nm_calc < 10000) ... elif not (380 <=
wavelength_nm_calc <= 780)` advisory classification (`app.py` 223-228). -/
def classifyWavelength (w : ℚ) : WavelengthClass :=
  if ¬(1 < w ∧ w < 10000) then .atypical
  else if ¬(380 ≤ w ∧ w ≤ 780) then .outOfVisible
  else .visible

/-- The default parameter set (`input_params_config`, `app.py` 78-87). -/
def defaultParams : InputParams :=
  { x1 := 10, x2 := 40, x3 := 110, P1 := 0, P2 := 4/5,
    x4 := 5, x5 := 797/50, slit_width := 1/20 }

/-- The exact results produced from `defaultParams`. -/
def defaultResults : Results :=
  { u_cm := 30, v_cm := 70, D_cm := 100, d_prime_mm := 4/5,
    d_mm := 12/35, delta_x_mm := 547/500, wavelength_nm := 13128/35,
    D_mm_plot := 1000, d_mm_plot := 12/35, b_slit_mm_plot := 1/20,
    lambda_mm_plot := 1641/4375000 }

/-- A second, separately spelled copy of the default parameter record. -/
def defaultParamsCopy : InputParams :=
  { x1 := 10, x2 := 40, x3 := 110, P1 := 0, P2 := 4/5,
    x4 := 5, x5 := 797/50, slit_width := 1/20 }

/-- Input violating only the ordering check (`x₁ = x₂`). -/
def badOrderParams : InputParams :=
  { x1 := 10, x2 := 10, x3 := 110, P1 := 0, P2 := 4/5,
    x4 := 5, x5 := 797/50, slit_width := 1/20 }

/-- Input violating both the ordering check (`x₁ = x₂`) and the
degenerate-images check (`P₁ = P₂`). -/
def doubleViolationParams : InputParams :=
  { x1 := 10, x2 := 10, x3 := 110, P1 := 0, P2 := 0,
    x4 := 5, x5 := 797/50, slit_width := 1/20 }

/-- Valid input whose fringe reading difference `x₅ - x₄ = 1e-9` passes the
`x₅ > x₄` check yet trips the `Δx ≤ 1e-9` guard. -/
def tinyFringeParams : InputParams :=
  { x1 := 10, x2 := 40, x3 := 110, P1 := 0, P2 := 4/5,
    x4 := 0, x5 := 1/1000000000, slit_width := 1/20 }

/-- Valid input with a negligible virtual-source separation
(`d = 2e-11 mm < 1e-9`) and an implausible wavelength (≈ 2e-8 nm). -/
def tinyDParams : InputParams :=
  { x1 := 0, x2 := 1, x3 := 101, P1 := 0, P2 := 1/500000000,
    x4 := 0, x5 := 10, slit_width := 1 }

/-!  The pattern synthesizer (`generate_plot` in `app.py` lines 255-345,
`update_plot` in `main.py` lines 479-...), embedded over `ℝ`.  Only the
numeric synthesis steps are modelled; figure/axes handling is rendering
plumbing outside the claims. -/

noncomputable section

/-- `1e-9` over `ℝ`. -/
def eps9R : ℝ := 1 / 1000000000

/-- `1e-15` over `ℝ`. -/
def eps15 : ℝ := 1 / 1000000000000000

/-- `Y_PIXELS = 200`: vertical replication count. -/
def Y_PIXELS : ℕ := 200

/-- `NUM_X_POINTS = 1000`: horizontal sample count. -/
def NUM_X_POINTS : ℕ := 1000

/-- `np.linspace(-6, 6, 1000)`: the screen sample positions. -/
def x_samples : List ℝ :=
  (List.range NUM_X_POINTS).map (fun i => -6 + 12 * (i : ℝ) / 999)

/-- `np.sinc`: the normalized sinc `sin(πt)/(πt)`, whose value at `t = 0`
is the limit `1`. -/
def sinc (t : ℝ) : ℝ :=
  if t = 0 then 1 else Real.sin (Real.pi * t) / (Real.pi * t)

/-- `common_factor = (np.pi * x_screen) / lambda_D`. -/
def common_factor (lambda_D x : ℝ) : ℝ := Real.pi * x / lambda_D

/-- The diffraction envelope: `1` when `abs(b_slit_mm) < 1e-9`, else
`np.sinc(alpha / np.pi) ** 2` with `alpha = b_slit_mm * common_factor`. -/
def diffraction_term (b_slit_mm lambda_D x : ℝ) : ℝ :=
  if |b_slit_mm| < eps9R then 1
  else sinc (b_slit_mm * common_factor lambda_D x / Real.pi) ^ 2

/-- The interference term: the constant `0.5` when `abs(d_mm) < 1e-9`, else
`np.cos(beta) ** 2` with `beta = d_mm * common_factor`. -/
def interference_term (d_mm lambda_D x : ℝ) : ℝ :=
  if |d_mm| < eps9R then 0.5
  else Real.cos (d_mm * common_factor lambda_D x) ^ 2

/-- `intensity_1d = np.maximum(diffraction_term * interference_term, 0)`
sampled over `x_samples`. -/
def intensity_1d (lambda_D d_mm b_slit_mm : ℝ) : List ℝ :=
  x_samples.map
    (fun x => max (diffraction_term b_slit_mm lambda_D x *
                   interference_term d_mm lambda_D x) 0)

/-- `intensity_2d = np.repeat(intensity_1d[np.newaxis, :], Y_PIXELS, 0)`. -/
def intensity_2d (lambda_D d_mm b_slit_mm : ℝ) : List (List ℝ) :=
  List.replicate Y_PIXELS (intensity_1d lambda_D d_mm b_slit_mm)

/-- `np.max` of a (nonempty) array; `0` on the empty list. -/
def listMax : List ℝ → ℝ
  | [] => 0
  | x :: xs => xs.foldl max x

/-- The protective floor on `lambda_D = lambda_mm * D_mm`:
`if abs(lambda_D) < 1e-15: lambda_D = 1e-15`. -/
def clamped_lambda_D (lambda_mm Dmm : ℝ) : ℝ :=
  if |lambda_mm * Dmm| < eps15 then eps15 else lambda_mm * Dmm

/-- The synthesized field: the replicated intensity grid plus the display
normalization bounds (`vmin_val`, `vmax_val`). -/
structure IntensityField where
  intensity2d : List (List ℝ)
  vmin : ℝ
  vmax : ℝ

/-- The numeric part of `generate_plot` / `update_plot`: the precondition
`abs(D_mm) < 1e-9 or abs(lambda_mm) < 1e-15` aborts, otherwise the 2D
intensity grid is synthesized and the display bounds are
`vmin_val = 0.0`, `vmax_val = np.max(intensity_2d)` floored to
`vmin_val + 1e-9`. -/
def synthesize (lambda_mm d_mm Dmm b_slit_mm : ℝ) : Option IntensityField :=
  if |Dmm| < eps9R ∨ |lambda_mm| < eps15 then none
  else
    some { intensity2d := intensity_2d (clamped_lambda_D lambda_mm Dmm) d_mm b_slit_mm
           vmin := 0
           vmax :=
             if listMax (intensity_2d (clamped_lambda_D lambda_mm Dmm) d_mm b_slit_mm).flatten ≤ 0 + eps9R
             then 0 + eps9R
             else listMax (intensity_2d (clamped_lambda_D lambda_mm Dmm) d_mm b_slit_mm).flatten }

end

/-!  Helper lemmas. -/

theorem rabs_eq_abs (q : ℚ) : rabs q = |q| := by
  unfold rabs
  split
  · exact (abs_of_neg (by assumption)).symm
  · exact (abs_of_nonneg (le_of_not_lt (by assumption))).symm

theorem calculate_physics_default :
    calculate_physics defaultParams = .ok defaultResults := by
  norm_num [calculate_physics, validationErrors, rabs, eps9, mkResults, u_cm,
    v_cm, d_prime_mm, u_mm, v_mm, D_mm, d_mm_calc, delta_x_mm_calc,
    wavelength_mm, wavelength_nm_calc, defaultParams, defaultResults]

theorem calculate_physics_main_default :
    calculate_physics_main defaultParams = .ok defaultResults := by
  norm_num [calculate_physics_main, rabs, eps9, mkResults, u_cm,
    v_cm, d_prime_mm, u_mm, v_mm, D_mm, d_mm_calc, delta_x_mm_calc,
    wavelength_mm, wavelength_nm_calc, defaultParams, defaultResults]

theorem validationErrors_nil (p : InputParams) (h : validationErrors p = []) :
    (p.x1 < p.x2 ∧ p.x2 < p.x3) ∧ ¬(rabs (p.P1 - p.P2) < eps9) ∧
    ¬(p.x5 ≤ p.x4) ∧ ¬(p.slit_width ≤ 0) := by
  unfold validationErrors at h
  split_ifs at h <;> simp_all

theorem solve_ok_of_checks (p : InputParams)
    (h1 : p.x1 < p.x2) (h2 : p.x2 < p.x3)
    (h3 : ¬(rabs (p.P1 - p.P2) < eps9)) (h4 : ¬(p.x5 ≤ p.x4))
    (h5 : ¬(p.slit_width ≤ 0))
    (h6 : ¬(rabs (v_mm p) < eps9)) (h7 : ¬(rabs (D_mm p) < eps9))
    (h8 : ¬(delta_x_mm_calc p ≤ eps9)) :
    calculate_physics p = .ok (mkResults p) ∧
    calculate_physics_main p = .ok (mkResults p) := by
  have hnil : validationErrors p = [] := by
    simp [validationErrors, h1, h2, h3, h4, h5]
  constructor
  · simp [calculate_physics, hnil, h6, h7, h8]
  · simp [calculate_physics_main, h1, h2, h3, h4, h5, h6, h7, h8]

theorem solve_ok_inversion (p : InputParams) (r : Results)
    (h : calculate_physics p = .ok r) :
    validationErrors p = [] ∧ ¬(rabs (v_mm p) < eps9) ∧
    ¬(rabs (D_mm p) < eps9) ∧ ¬(delta_x_mm_calc p ≤ eps9) ∧
    r = mkResults p := by
  unfold calculate_physics at h
  split_ifs at h <;> simp_all

/-!  Claim theorems. -/

/-- C1 (counterexample): with the default geometry but fringe readings
`x₄ = 0`, `x₅ = 1e-9`, every hypothesis of the claim holds (`x₁ < x₂ < x₃`,
`|P₁ - P₂| > 1e-9`, `x₅ > x₄`, `slit_width > 0`, `|v_mm| > 1e-9`,
`|D_mm| > 1e-9`), yet `solve` does not return a result: the
`Δx ≤ 1e-9` guard aborts it. -/
theorem c1_counterexample :
    (tinyFringeParams.x1 < tinyFringeParams.x2 ∧
     tinyFringeParams.x2 < tinyFringeParams.x3) ∧
    eps9 < |tinyFringeParams.P1 - tinyFringeParams.P2| ∧
    tinyFringeParams.x4 < tinyFringeParams.x5 ∧
    0 < tinyFringeParams.slit_width ∧
    eps9 < |v_mm tinyFringeParams| ∧
    eps9 < |D_mm tinyFringeParams| ∧
    calculate_physics tinyFringeParams = .error .deltaXDegenerate ∧
    calculate_physics_main tinyFringeParams = .error .deltaXDegenerate := by
  refine ⟨by norm_num [tinyFringeParams], ?_, by norm_num [tinyFringeParams],
    by norm_num [tinyFringeParams], ?_, ?_, ?_, ?_⟩
  · rw [← rabs_eq_abs]; norm_num [rabs, eps9, tinyFringeParams]
  · rw [← rabs_eq_abs]
    norm_num [rabs, eps9, v_mm, v_cm, tinyFringeParams]
  · rw [← rabs_eq_abs]
    norm_num [rabs, eps9, D_mm, tinyFringeParams]
  · norm_num [calculate_physics, validationErrors, rabs, eps9, v_mm, v_cm,
      D_mm, delta_x_mm_calc, tinyFringeParams]
  · norm_num [calculate_physics_main, rabs, eps9, v_mm, v_cm,
      D_mm, delta_x_mm_calc, tinyFringeParams]

/-- C1 (amended: the claim additionally needs the fringe-spacing guard
`delta_x_mm = |x₅ - x₄|/10 > 1e-9`, which `x₅ > x₄` alone does not imply):
for every input with `x₁ < x₂ < x₃`, `|P₁ - P₂| > 1e-9`, `x₅ > x₄`,
`slit_width > 0`, `|v_mm| > 1e-9`, `|D_mm| > 1e-9` and
`|x₅ - x₄|/10 > 1e-9`, `solve` returns a result whose fields satisfy
exactly `u_cm = x₂ - x₁`, `v_cm = x₃ - x₂`, `D_mm = (x₃ - x₁)·10`,
`d_prime_mm = |P₂ - P₁|`, `d_mm = d_prime_mm·(u_mm/v_mm)`,
`delta_x_mm = |x₅ - x₄|/10`, `wavelength_mm = d_mm·delta_x_mm/D_mm` and
`wavelength_nm = wavelength_mm·1e6`. -/
theorem c1_solve_field_equations (p : InputParams)
    (h1 : p.x1 < p.x2) (h2 : p.x2 < p.x3)
    (h3 : eps9 < |p.P1 - p.P2|)
    (h4 : p.x4 < p.x5)
    (h5 : 0 < p.slit_width)
    (h6 : eps9 < |v_mm p|) (h7 : eps9 < |D_mm p|)
    (h8 : eps9 < delta_x_mm_calc p) :
    ∃ r, calculate_physics p = .ok r ∧
      r.u_cm = p.x2 - p.x1 ∧
      r.v_cm = p.x3 - p.x2 ∧
      r.D_mm_plot = (p.x3 - p.x1) * 10 ∧
      r.d_prime_mm = |p.P2 - p.P1| ∧
      r.d_mm = r.d_prime_mm * ((r.u_cm * 10) / (r.v_cm * 10)) ∧
      r.delta_x_mm = |p.x5 - p.x4| / 10 ∧
      r.lambda_mm_plot = r.d_mm * r.delta_x_mm / r.D_mm_plot ∧
      r.wavelength_nm = r.lambda_mm_plot * 1000000 := by
  have hok := solve_ok_of_checks p h1 h2
    (by rw [rabs_eq_abs]; exact not_lt.2 h3.le)
    (not_le.2 h4) (not_le.2 h5)
    (by rw [rabs_eq_abs]; exact not_lt.2 h6.le)
    (by rw [rabs_eq_abs]; exact not_lt.2 h7.le)
    (not_le.2 h8)
  refine ⟨mkResults p, hok.1, rfl, rfl, rfl, rabs_eq_abs _, rfl, ?_, rfl, rfl⟩
  show delta_x_mm_calc p = |p.x5 - p.x4| / 10
  rw [delta_x_mm_calc, rabs_eq_abs]

/-- C1 (witness): the amended theorem applied at the default parameters. -/
theorem c1_witness :
    ∃ r, calculate_physics defaultParams = .ok r ∧
      r.u_cm = defaultParams.x2 - defaultParams.x1 ∧
      r.v_cm = defaultParams.x3 - defaultParams.x2 ∧
      r.D_mm_plot = (defaultParams.x3 - defaultParams.x1) * 10 ∧
      r.d_prime_mm = |defaultParams.P2 - defaultParams.P1| ∧
      r.d_mm = r.d_prime_mm * ((r.u_cm * 10) / (r.v_cm * 10)) ∧
      r.delta_x_mm = |defaultParams.x5 - defaultParams.x4| / 10 ∧
      r.lambda_mm_plot = r.d_mm * r.delta_x_mm / r.D_mm_plot ∧
      r.wavelength_nm = r.lambda_mm_plot * 1000000 :=
  c1_solve_field_equations defaultParams
    (by norm_num [defaultParams]) (by norm_num [defaultParams])
    (by rw [← rabs_eq_abs]; norm_num [rabs, eps9, defaultParams])
    (by norm_num [defaultParams]) (by norm_num [defaultParams])
    (by rw [← rabs_eq_abs]; norm_num [rabs, eps9, v_mm, v_cm, defaultParams])
    (by rw [← rabs_eq_abs]; norm_num [rabs, eps9, D_mm, defaultParams])
    (by norm_num [delta_x_mm_calc, rabs, eps9, defaultParams])

/-- C2 (counterexample): on the default parameter set the solver succeeds,
but the computed wavelength is exactly `13128/35 ≈ 375.09 nm`, which is not
`375.4` to one decimal place (the claim's stated precision). -/
theorem c2_counterexample :
    calculate_physics defaultParams = .ok defaultResults ∧
    ¬(|defaultResults.wavelength_nm - 3754/10| ≤ 1/20) := by
  refine ⟨calculate_physics_default, ?_⟩
  have h : defaultResults.wavelength_nm - 3754/10 = -(11/35) := by
    norm_num [defaultResults]
  rw [h, abs_neg, abs_of_nonneg (by norm_num)]
  norm_num

/-- C2 (amended: the computed wavelength is `13128/35 ≈ 375.09 nm`, i.e.
`375.1` to one decimal, not `375.4`; everything else in the claim holds):
on the default set `x₁=10, x₂=40, x₃=110, P₁=0, P₂=0.80, x₄=5, x₅=15.94,
b=0.05`, both front-ends succeed with `u_cm = 30`, `v_cm = 70`,
`D_cm = 100`, `d_prime_mm = 0.800`, `d_mm ≈ 0.343`, `delta_x_mm = 1.094`,
`wavelength_nm = 13128/35 ≈ 375.09`, and the out-of-visible-range notice
fires rather than the implausibility warning. -/
theorem c2_default_scenario :
    calculate_physics defaultParams = .ok defaultResults ∧
    calculate_physics_main defaultParams = .ok defaultResults ∧
    defaultResults.u_cm = 30 ∧
    defaultResults.v_cm = 70 ∧
    defaultResults.D_cm = 100 ∧
    defaultResults.d_prime_mm = 800/1000 ∧
    |defaultResults.d_mm - 343/1000| ≤ 1/2000 ∧
    defaultResults.delta_x_mm = 1094/1000 ∧
    defaultResults.wavelength_nm = 13128/35 ∧
    |defaultResults.wavelength_nm - 37509/100| ≤ 1/200 ∧
    classifyWavelength defaultResults.wavelength_nm = .outOfVisible := by
  refine ⟨calculate_physics_default, calculate_physics_main_default,
    by norm_num [defaultResults], by norm_num [defaultResults],
    by norm_num [defaultResults], by norm_num [defaultResults],
    ?_, by norm_num [defaultResults], by norm_num [defaultResults], ?_, ?_⟩
  · have h : defaultResults.d_mm - 343/1000 = -(1/7000) := by
      norm_num [defaultResults]
    rw [h, abs_neg, abs_of_nonneg (by norm_num)]
    norm_num
  · have h : defaultResults.wavelength_nm - 37509/100 = -(3/700) := by
      norm_num [defaultResults]
    rw [h, abs_neg, abs_of_nonneg (by norm_num)]
    norm_num
  · norm_num [classifyWavelength, defaultResults]

/-- C3 (helper): when the accumulated error list is a cons, the core
returns exactly it. -/
theorem calculate_physics_error_of_cons (p : InputParams) (e : VErr)
    (tl : List VErr) (h : validationErrors p = e :: tl) :
    calculate_physics p = .error (.validation (e :: tl)) := by
  unfold calculate_physics
  rw [h]
  simp

/-- C3 (counterexample): on an input violating both the ordering check and
the degenerate-images check, the core (`app.py`) reports both errors, not
the single first-failing one. -/
theorem c3_counterexample :
    calculate_physics doubleViolationParams =
      .error (.validation [VErr.ordering, VErr.degenerateImages]) ∧
    ∀ e : VErr, calculate_physics doubleViolationParams ≠
      .error (.validation [e]) := by
  have hv : validationErrors doubleViolationParams =
      VErr.ordering :: [VErr.degenerateImages] := by
    norm_num [validationErrors, rabs, eps9, doubleViolationParams]
  have h := calculate_physics_error_of_cons doubleViolationParams
    VErr.ordering [VErr.degenerateImages] hv
  refine ⟨h, ?_⟩
  intro e he
  rw [h] at he
  cases e <;> simp_all

/-- C3 (amended: the four checks are evaluated in the stated fixed order
and any violation prevents any derived quantity; `main.py` reports exactly
the first failing check, while the `app.py` core reports every failing
check, in that order, the first reported being the first failing; in
particular `x₁ = x₂` or `x₂ = x₃` yields the ordering error). -/
theorem c3_first_failing_reported (p : InputParams) :
    (∀ e : VErr, firstFailing p = some e →
      calculate_physics_main p = .error (.validation [e]) ∧
      calculate_physics p = .error (.validation (validationErrors p)) ∧
      (validationErrors p).head? = some e) ∧
    ((p.x1 = p.x2 ∨ p.x2 = p.x3) → firstFailing p = some VErr.ordering) := by
  constructor
  · intro e he
    unfold firstFailing at he
    split_ifs at he with g1 g2 g3 g4
    · cases he
      have hh : (validationErrors p).head? = some VErr.degenerateImages := by
        simp [validationErrors, g1, g2]
      have hne : validationErrors p ≠ [] := by
        intro hnil; rw [hnil] at hh; cases hh
      exact ⟨by unfold calculate_physics_main; split_ifs <;> simp_all,
             by simp [calculate_physics, hne], hh⟩
    · cases he
      have hh : (validationErrors p).head? = some VErr.fringeOrdering := by
        simp [validationErrors, g1, g2, g3]
      have hne : validationErrors p ≠ [] := by
        intro hnil; rw [hnil] at hh; cases hh
      exact ⟨by unfold calculate_physics_main; split_ifs <;> simp_all,
             by simp [calculate_physics, hne], hh⟩
    · cases he
      have hh : (validationErrors p).head? = some VErr.invalidSlitWidth := by
        simp [validationErrors, g1, g2, g3, g4]
      have hne : validationErrors p ≠ [] := by
        intro hnil; rw [hnil] at hh; cases hh
      exact ⟨by unfold calculate_physics_main; split_ifs <;> simp_all,
             by simp [calculate_physics, hne], hh⟩
    · cases he
      have hh : (validationErrors p).head? = some VErr.ordering := by
        simp [validationErrors, g1]
      have hne : validationErrors p ≠ [] := by
        intro hnil; rw [hnil] at hh; cases hh
      exact ⟨by unfold calculate_physics_main; split_ifs <;> simp_all,
             by simp [calculate_physics, hne], hh⟩
  · rintro (h | h) <;> simp [firstFailing, h]

/-- C3 (witness): at `x₁ = x₂ = 10` the first (and only) failing check is
the ordering one, and `main.py` reports exactly it. -/
theorem c3_witness :
    calculate_physics_main badOrderParams =
      .error (.validation [VErr.ordering]) ∧
    firstFailing badOrderParams = some VErr.ordering := by
  have h : firstFailing badOrderParams = some VErr.ordering :=
    (c3_first_failing_reported badOrderParams).2 (Or.inl rfl)
  exact ⟨((c3_first_failing_reported badOrderParams).1 VErr.ordering h).1, h⟩

/-- C4: for every input passing the four validation checks and the
`|v_mm| > 1e-9`, `|D_mm| > 1e-9` and `delta_x_mm > 1e-9` guards, both
front-ends return a successful result — a negligible `d_mm` or an
out-of-range wavelength only triggers the advisory `dNegligible` /
`classifyWavelength` conditions and never makes the solve call fail. -/
theorem c4_warnings_nonfatal (p : InputParams)
    (h1 : p.x1 < p.x2) (h2 : p.x2 < p.x3)
    (h3 : eps9 < |p.P1 - p.P2|)
    (h4 : p.x4 < p.x5)
    (h5 : 0 < p.slit_width)
    (h6 : eps9 < |v_mm p|) (h7 : eps9 < |D_mm p|)
    (h8 : eps9 < delta_x_mm_calc p) :
    (calculate_physics p).isOk = true ∧
    (calculate_physics_main p).isOk = true := by
  have hok := solve_ok_of_checks p h1 h2
    (by rw [rabs_eq_abs]; exact not_lt.2 h3.le)
    (not_le.2 h4) (not_le.2 h5)
    (by rw [rabs_eq_abs]; exact not_lt.2 h6.le)
    (by rw [rabs_eq_abs]; exact not_lt.2 h7.le)
    (not_le.2 h8)
  rw [hok.1, hok.2]
  exact ⟨rfl, rfl⟩

/-- C4 (witness): on `tinyDParams` the virtual-source separation is
negligible (`d = 2e-11 mm`) and the wavelength implausible (≈ 2e-8 nm),
yet both solve calls succeed. -/
theorem c4_witness :
    (calculate_physics tinyDParams).isOk = true ∧
    (calculate_physics_main tinyDParams).isOk = true ∧
    dNegligible tinyDParams ∧
    classifyWavelength (wavelength_nm_calc tinyDParams) = .atypical := by
  have h := c4_warnings_nonfatal tinyDParams
    (by norm_num [tinyDParams]) (by norm_num [tinyDParams])
    (by rw [← rabs_eq_abs]; norm_num [rabs, eps9, tinyDParams])
    (by norm_num [tinyDParams]) (by norm_num [tinyDParams])
    (by rw [← rabs_eq_abs]; norm_num [rabs, eps9, v_mm, v_cm, tinyDParams])
    (by rw [← rabs_eq_abs]; norm_num [rabs, eps9, D_mm, tinyDParams])
    (by norm_num [delta_x_mm_calc, rabs, eps9, tinyDParams])
  refine ⟨h.1, h.2, ?_, ?_⟩
  · norm_num [dNegligible, d_mm_calc, d_prime_mm, u_mm, v_mm, u_cm, v_cm,
      rabs, eps9, tinyDParams]
  · norm_num [classifyWavelength, wavelength_nm_calc, wavelength_mm,
      d_mm_calc, d_prime_mm, u_mm, v_mm, u_cm, v_cm, delta_x_mm_calc,
      D_mm, rabs, eps9, tinyDParams]

/-- C7: the solver is deterministic — two calls on field-for-field equal
parameter records return identical results (or identical errors), in both
front-ends; the embedded solvers consult nothing but their argument. -/
theorem c7_deterministic (p q : InputParams)
    (h : p.x1 = q.x1 ∧ p.x2 = q.x2 ∧ p.x3 = q.x3 ∧ p.P1 = q.P1 ∧
         p.P2 = q.P2 ∧ p.x4 = q.x4 ∧ p.x5 = q.x5 ∧
         p.slit_width = q.slit_width) :
    calculate_physics p = calculate_physics q ∧
    calculate_physics_main p = calculate_physics_main q := by
  obtain ⟨e1, e2, e3, e4, e5, e6, e7, e8⟩ := h
  have hpq : p = q := by
    cases p; cases q; simp_all
  rw [hpq]
  exact ⟨rfl, rfl⟩

/-- C7 (witness): the theorem applied to two separately spelled copies of
the default parameter record. -/
theorem c7_witness :
    calculate_physics defaultParams = calculate_physics defaultParamsCopy :=
  (c7_deterministic defaultParams defaultParamsCopy
    ⟨rfl, rfl, rfl, rfl, rfl, rfl, rfl, rfl⟩).1

/-- C9: whenever `solve` succeeds, the screen-to-slit separation is the sum
of the object and image distances: `D_cm = u_cm + v_cm` and, in millimetre
units, `D_mm = u_cm·10 + v_cm·10`. -/
theorem c9_screen_distance_sum (p : InputParams) (r : Results)
    (h : calculate_physics p = .ok r) :
    r.D_cm = r.u_cm + r.v_cm ∧
    r.D_mm_plot = r.u_cm * 10 + r.v_cm * 10 := by
  obtain ⟨-, -, -, -, hr⟩ := solve_ok_inversion p r h
  subst hr
  constructor
  · show D_mm p / 10 = u_cm p + v_cm p
    unfold D_mm u_cm v_cm
    ring
  · show D_mm p = u_cm p * 10 + v_cm p * 10
    unfold D_mm u_cm v_cm
    ring

/-- C9 (witness): the relation evaluated on the default-parameter run. -/
theorem c9_witness :
    defaultResults.D_cm = defaultResults.u_cm + defaultResults.v_cm ∧
    defaultResults.D_mm_plot =
      defaultResults.u_cm * 10 + defaultResults.v_cm * 10 :=
  c9_screen_distance_sum defaultParams defaultResults
    calculate_physics_default

/-- C10: whenever `solve` succeeds, every derived quantity is strictly
positive — `u_cm`, `v_cm`, `D_cm`, `d_prime_mm`, `d_mm`, `delta_x_mm` and
`wavelength_nm` — even when the negligible-`d` advisory fires. -/
theorem c10_derived_positive (p : InputParams) (r : Results)
    (h : calculate_physics p = .ok r) :
    0 < r.u_cm ∧ 0 < r.v_cm ∧ 0 < r.D_cm ∧ 0 < r.d_prime_mm ∧
    0 < r.d_mm ∧ 0 < r.delta_x_mm ∧ 0 < r.wavelength_nm := by
  obtain ⟨hnil, hv, hD, hdx, hr⟩ := solve_ok_inversion p r h
  obtain ⟨⟨hx12, hx23⟩, hP, -, -⟩ := validationErrors_nil p hnil
  subst hr
  have heps : (0:ℚ) < eps9 := by norm_num [eps9]
  have hu : 0 < u_cm p := sub_pos.2 hx12
  have hvc : 0 < v_cm p := sub_pos.2 hx23
  have hdp : 0 < d_prime_mm p := by
    have h1 : eps9 ≤ rabs (p.P1 - p.P2) := le_of_not_lt hP
    have h2 : rabs (p.P1 - p.P2) = rabs (p.P2 - p.P1) := by
      rw [rabs_eq_abs, rabs_eq_abs, abs_sub_comm]
    unfold d_prime_mm
    rw [← h2]
    exact lt_of_lt_of_le heps h1
  have humm : 0 < u_mm p := mul_pos hu (by norm_num)
  have hvmm : 0 < v_mm p := mul_pos hvc (by norm_num)
  have hDmm : 0 < D_mm p :=
    mul_pos (sub_pos.2 (hx12.trans hx23)) (by norm_num)
  have hd : 0 < d_mm_calc p := mul_pos hdp (div_pos humm hvmm)
  have hdx' : 0 < delta_x_mm_calc p := heps.trans (not_le.1 hdx)
  have hwl : 0 < wavelength_mm p := by
    unfold wavelength_mm
    exact div_pos (mul_pos hd hdx') hDmm
  refine ⟨hu, hvc, ?_, hdp, hd, hdx', ?_⟩
  · show 0 < D_mm p / 10
    exact div_pos hDmm (by norm_num)
  · show 0 < wavelength_mm p * 1000000
    exact mul_pos hwl (by norm_num)

/-- C10 (witness): positivity of the derived quantities on the
default-parameter run. -/
theorem c10_witness :
    0 < defaultResults.u_cm ∧ 0 < defaultResults.v_cm ∧
    0 < defaultResults.D_cm ∧ 0 < defaultResults.d_prime_mm ∧
    0 < defaultResults.d_mm ∧ 0 < defaultResults.delta_x_mm ∧
    0 < defaultResults.wavelength_nm :=
  c10_derived_positive defaultParams defaultResults
    calculate_physics_default

/-- C5: in the synthesizer, when `|d_mm| < 1e-9` the interference term is
the constant `0.5` at every sample position (a total real value — never an
undefined one), and otherwise it equals `cos(d_mm·π·x/lambda_D)²`. -/
theorem c5_interference_term_spec (d_mm lambda_D x : ℝ) :
    (|d_mm| < eps9R → interference_term d_mm lambda_D x = 0.5) ∧
    (eps9R ≤ |d_mm| → interference_term d_mm lambda_D x =
      Real.cos (d_mm * Real.pi * x / lambda_D) ^ 2) := by
  constructor
  · intro h
    simp [interference_term, h]
  · intro h
    unfold interference_term
    rw [if_neg (not_lt.2 h)]
    unfold common_factor
    rw [← mul_div_assoc, ← mul_assoc]

/-- C5 (witness): both branches evaluated — `d = 0` gives the uniform
`0.5`, `d = 1` the squared cosine. -/
theorem c5_witness :
    interference_term 0 1 1 = 0.5 ∧
    interference_term 1 1 1 = Real.cos (1 * Real.pi * 1 / 1) ^ 2 :=
  ⟨(c5_interference_term_spec 0 1 1).1 (by norm_num [eps9R]),
   (c5_interference_term_spec 1 1 1).2 (by norm_num [eps9R])⟩

/-- C6: in the synthesizer, when `|slit_width| < 1e-9` the diffraction
envelope is `1` at every sample; otherwise it is the normalized sinc of
`alpha/π` squared, i.e. `sinc(b·x/lambda_D)²`; it is a total, well-defined
real value at every sample, with the `0/0` case at `x = 0` taking the
limiting value `1`, and it is never negative. -/
theorem c6_diffraction_envelope_spec (b_slit_mm lambda_D x : ℝ) :
    (|b_slit_mm| < eps9R → diffraction_term b_slit_mm lambda_D x = 1) ∧
    (eps9R ≤ |b_slit_mm| → diffraction_term b_slit_mm lambda_D x =
      sinc (b_slit_mm * x / lambda_D) ^ 2) ∧
    diffraction_term b_slit_mm lambda_D 0 = 1 ∧
    0 ≤ diffraction_term b_slit_mm lambda_D x := by
  refine ⟨?_, ?_, ?_, ?_⟩
  · intro h
    simp [diffraction_term, h]
  · intro h
    unfold diffraction_term
    rw [if_neg (not_lt.2 h)]
    have harg : b_slit_mm * common_factor lambda_D x / Real.pi =
        b_slit_mm * x / lambda_D := by
      unfold common_factor
      rw [← mul_div_assoc, div_div,
        show b_slit_mm * (Real.pi * x) = Real.pi * (b_slit_mm * x) by ring,
        show lambda_D * Real.pi = Real.pi * lambda_D by ring,
        mul_div_mul_left _ _ Real.pi_ne_zero]
    rw [harg]
  · by_cases h : |b_slit_mm| < eps9R
    · simp [diffraction_term, h]
    · unfold diffraction_term
      rw [if_neg h]
      simp [common_factor, sinc]
  · by_cases h : |b_slit_mm| < eps9R
    · simp [diffraction_term, h]
    · unfold diffraction_term
      rw [if_neg h]
      positivity

/-- C6 (witness): both branches and the `x = 0` limiting value
evaluated. -/
theorem c6_witness :
    diffraction_term 0 1 1 = 1 ∧
    diffraction_term 1 1 1 = sinc (1 * 1 / 1) ^ 2 ∧
    diffraction_term 1 1 0 = 1 :=
  ⟨(c6_diffraction_envelope_spec 0 1 1).1 (by norm_num [eps9R]),
   (c6_diffraction_envelope_spec 1 1 1).2.1 (by norm_num [eps9R]),
   (c6_diffraction_envelope_spec 1 1 0).2.2.1⟩

/-- C8: whenever synthesis runs, the display-normalization bounds satisfy
`vmin = 0` exactly; `vmax` is the intensity field's own maximum whenever
that maximum exceeds `0 + 1e-9` and is `0 + 1e-9` otherwise; hence the
normalization range is always at least `1e-9` wide. -/
theorem c8_normalization_bounds (lambda_mm d_mm Dmm b_slit_mm : ℝ)
    (hD : eps9R ≤ |Dmm|) (hl : eps15 ≤ |lambda_mm|) :
    ∃ f, synthesize lambda_mm d_mm Dmm b_slit_mm = some f ∧
      f.vmin = 0 ∧
      (listMax f.intensity2d.flatten ≤ eps9R → f.vmax = eps9R) ∧
      (eps9R < listMax f.intensity2d.flatten →
        f.vmax = listMax f.intensity2d.flatten) ∧
      eps9R ≤ f.vmax - f.vmin := by
  have hcond : ¬(|Dmm| < eps9R ∨ |lambda_mm| < eps15) := by
    rw [not_or]
    exact ⟨not_lt.2 hD, not_lt.2 hl⟩
  unfold synthesize
  rw [if_neg hcond]
  refine ⟨_, rfl, rfl, ?_, ?_, ?_⟩
  · intro hle
    dsimp only
    rw [if_pos (by rw [zero_add]; exact hle), zero_add]
  · intro hlt
    dsimp only
    rw [if_neg (by rw [zero_add]; exact not_le.2 hlt)]
  · dsimp only
    by_cases hc : listMax
        (intensity_2d (clamped_lambda_D lambda_mm Dmm) d_mm
          b_slit_mm).flatten ≤ 0 + eps9R
    · rw [if_pos hc]
      norm_num
    · rw [if_neg hc]
      push_neg at hc
      linarith

/-- C8 (witness): the bounds on a concrete synthesis run. -/
theorem c8_witness :
    ∃ f, synthesize 1 1 1 1 = some f ∧ f.vmin = 0 ∧
      eps9R ≤ f.vmax - f.vmin := by
  obtain ⟨f, h1, h2, -, -, h5⟩ :=
    c8_normalization_bounds 1 1 1 1 (by norm_num [eps9R])
      (by norm_num [eps15])
  exact ⟨f, h1, h2, h5⟩

end Biprism
